import Mathlib

/-!
Shallow embedding of the ZeroSpice authenticated SPICE proxy server
(`Server/src/spice_proxy.py`) and verification of its specification.

Conventions of the embedding:
* wall time is a `Nat` of seconds since the epoch;
* Python dicts become association lists `List (String × α)` with
  lookup / overwrite / delete helpers mirroring dict semantics
  (first binding wins; the maps built by the server keep keys unique);
* the random sources (`secrets.randbelow`, `secrets.token_urlsafe`,
  `pyotp.random_base32`) are passed in as explicit arguments;
* the external cryptographic primitives (HMAC-SHA256 inside PyJWT,
  the HOTP code derivation inside pyotp) are passed in as opaque
  function arguments `mac` and `otp`: the claims under verification
  concern only how the server composes them (window logic, expiry
  checks, signature comparison), never the hash internals;
* HTTP responses are a status code plus a structured body mirroring
  the exact `jsonify` payloads the server builds.
-/

namespace ZeroSpice

/-! ### Association-list helpers (Python dict operations) -/

/-- Python `d.get(k)` / `k in d` lookup on an association list. -/
def lookupA {α : Type} (k : String) : List (String × α) → Option α
  | [] => none
  | (k', v) :: t => if k = k' then some v else lookupA k t

/-- Python `d[k] = v`: overwrite the binding if present, else append. -/
def setA {α : Type} (k : String) (v : α) : List (String × α) → List (String × α)
  | [] => [(k, v)]
  | (k', v') :: t => if k = k' then (k, v) :: t else (k', v') :: setA k v t

/-- Python `del d[k]`: drop the (first) binding of `k`. -/
def eraseA {α : Type} (k : String) : List (String × α) → List (String × α)
  | [] => []
  | (k', v') :: t => if k = k' then t else (k', v') :: eraseA k t

/-! ### Python string primitives, modelled over the Latin-1 range.

The server normalizes usernames with `str.strip()`, `str.lower()`,
`str.upper()` and checks them with `str.isalnum()`.  These are Unicode
operations; the model below reproduces them faithfully for every code
point below 256 (ASCII plus the Latin-1 supplement).  For code points
≥ 256 the model returns the identity / `false`; the theorems only ever
evaluate these functions on Latin-1 inputs. -/

/-- Python `str.lower()` restricted to Latin-1: ASCII `A`–`Z` and the
Latin-1 uppercase letters `À`–`Þ` (skipping `×`) map down by 32. -/
def pyLowerChar (c : Char) : Char :=
  if 65 ≤ c.toNat ∧ c.toNat ≤ 90 then Char.ofNat (c.toNat + 32)
  else if 192 ≤ c.toNat ∧ c.toNat ≤ 222 ∧ c.toNat ≠ 215 then Char.ofNat (c.toNat + 32)
  else c

def pyLower (s : String) : String := (s.toList.map pyLowerChar).asString

/-- Python `str.upper()` restricted to Latin-1 (ASCII `a`–`z` and
`à`–`þ` skipping `÷` map up by 32; `ß` and `ÿ` are left unchanged,
a deliberate simplification that no theorem depends on). -/
def pyUpperChar (c : Char) : Char :=
  if 97 ≤ c.toNat ∧ c.toNat ≤ 122 then Char.ofNat (c.toNat - 32)
  else if 224 ≤ c.toNat ∧ c.toNat ≤ 254 ∧ c.toNat ≠ 247 ∧ c.toNat ≠ 223 then
    Char.ofNat (c.toNat - 32)
  else c

def pyUpper (s : String) : String := (s.toList.map pyUpperChar).asString

/-- The characters removed by Python `str.strip()` (ASCII whitespace;
the exotic Unicode space code points are irrelevant to the claims). -/
def pyIsSpace (c : Char) : Bool :=
  c = ' ' ∨ c = '\t' ∨ c = '\n' ∨ c = '\x0d' ∨ c = '\x0b' ∨ c = '\x0c'

def pyStrip (s : String) : String :=
  ((s.toList.dropWhile pyIsSpace).reverse.dropWhile pyIsSpace).reverse.asString

/-- Python `str.isalnum()` on one character, restricted to Latin-1.
Below 256 the Unicode alphanumeric code points are exactly: the ASCII
digits and letters, `ª` (U+00AA), `²`/`³`/`¹` (superscript digits),
`µ` (U+00B5), `º` (U+00BA), `¼`/`½`/`¾` (vulgar fractions), and the
Latin-1 letters U+00C0–U+00FF minus `×` (U+00D7) and `÷` (U+00F7).
Code points ≥ 256 are modelled as `false` (Python accepts many more
alphanumeric code points up there, which only widens the gap between
`isalnum` and the spec's ASCII regex that the theorems establish). -/
def pyIsAlnumChar (c : Char) : Bool :=
  let n := c.toNat
  (48 ≤ n ∧ n ≤ 57) ∨ (65 ≤ n ∧ n ≤ 90) ∨ (97 ≤ n ∧ n ≤ 122) ∨
  n = 170 ∨ n = 178 ∨ n = 179 ∨ n = 181 ∨ n = 185 ∨ n = 186 ∨
  n = 188 ∨ n = 189 ∨ n = 190 ∨
  (192 ≤ n ∧ n ≤ 255 ∧ n ≠ 215 ∧ n ≠ 247)

/-- Python `s.isalnum()`: nonempty and every character alphanumeric. -/
def pyIsAlnum (s : String) : Bool :=
  s ≠ "" ∧ s.toList.all pyIsAlnumChar

/-! ### HTTP responses -/

/-- The response bodies the server constructs (each constructor mirrors
one literal `jsonify(...)` / `Response(...)` payload in the source). -/
inductive Body where
  /-- Models `jsonify(\x7b"error": msg\x7d)`. -/
  | jsonError (msg : String)
  /-- Models `jsonify(\x7b"token": token, "user": user\x7d)` from `/login`. -/
  | jsonLogin (tokenUser : String) (tokenExp : Nat) (tokenSig : Nat) (user : String)
  /-- the `application/x-virt-viewer` text from `/spice/<node>/<vmid>` -/
  | vvFile (text : String)
  /-- the `pending_confirmation` JSON from `POST /enroll` step one -/
  | jsonPending (username secret provisioningUri : String)
  /-- the `enrolled` JSON from `POST /enroll` confirmation -/
  | jsonEnrolled (username : String)
  /-- the reason-carrying 400 for a failed TOTP confirmation -/
  | jsonErrorStep (msg step : String)
  /-- Flask's default handler for an uncaught exception (HTML page) -/
  | internalServerError
  deriving DecidableEq, Repr

structure HttpResponse where
  status : Nat
  body : Body
  deriving DecidableEq, Repr

/-! ### TOTP verification (pyotp)

`pyotp.TOTP(secret).verify(code, valid_window=1)` compares `code`
against the codes of time steps `timecode-1`, `timecode`, `timecode+1`
where `timecode = floor(for_time / 30)`.  The code derivation itself
(HMAC-SHA1 based HOTP) is the opaque argument `gen : Int → String`
giving the code of each time step for the secret at hand. -/

def totpVerify (gen : Int → String) (code : String) (now : Nat) : Bool :=
  let tc : Int := (now : Int) / 30
  code = gen (tc - 1) ∨ code = gen tc ∨ code = gen (tc + 1)

/-! ### JWT bearer tokens (PyJWT, algorithm HS256)

A token is its payload `\x7buser, exp\x7d` together with the HMAC-SHA256
signature over that payload; the MAC itself is the opaque argument
`mac : String → String → Nat → Nat` (secret, user, exp ↦ tag).
`jwt.decode` verifies the signature first (`InvalidTokenError`), then
the `exp` claim (`ExpiredSignatureError`, raised when `exp ≤ now`). -/

structure Jwt where
  user : String
  exp : Nat
  sig : Nat
  deriving DecidableEq, Repr

/-- Models `jwt.encode(\x7b"user": u, "exp": e\x7d, secret, algorithm="HS256")`. -/
def jwtEncode (mac : String → String → Nat → Nat) (secret : String)
    (u : String) (e : Nat) : Jwt :=
  ⟨u, e, mac secret u e⟩

inductive JwtError where
  | expired
  | invalid
  deriving DecidableEq, Repr

/-- Models `jwt.decode(token, secret, algorithms=["HS256"])`. -/
def jwtDecode (mac : String → String → Nat → Nat) (secret : String)
    (now : Nat) (t : Jwt) : Except JwtError String :=
  if t.sig ≠ mac secret t.user t.exp then .error .invalid
  else if t.exp ≤ now then .error .expired
  else .ok t.user

/-! ### The `require_auth` guard

The decorator reads the `Authorization` header; a missing header or one
not starting with `Bearer ` is the `none` case.  On decode failure it
returns 401 with a body naming the failure; on success the handler runs
with `request.user` set to the payload's `user` claim. -/

def require_auth (mac : String → String → Nat → Nat) (secret : String)
    (now : Nat) (auth : Option Jwt) : Except HttpResponse String :=
  match auth with
  | none => .error ⟨401, .jsonError "No token provided"⟩
  | some t =>
    match jwtDecode mac secret now t with
    | .error .expired => .error ⟨401, .jsonError "Token expired"⟩
    | .error .invalid => .error ⟨401, .jsonError "Invalid token"⟩
    | .ok u => .ok u

/-! ### `POST /login` -/

/-- The `/login` handler.  `username` and `totp_code` are the request
fields with `""` standing for JSON `null`/absent (both are falsy in the
`if not username or not totp_code` test).  `userSecrets` is
`CONFIG["USER_SECRETS"]`; `otp secret` is the TOTP code sequence of
`secret`; `mac`/`jwtSecret` sign the minted token. -/
def login (userSecrets : List (String × String))
    (otp : String → Int → String) (mac : String → String → Nat → Nat)
    (jwtSecret : String) (now : Nat)
    (username totp_code : String) : HttpResponse :=
  if username = "" ∨ totp_code = "" then
    ⟨401, .jsonError "Invalid credentials"⟩
  else
    match lookupA (pyLower username) userSecrets with
    | none => ⟨401, .jsonError "Invalid credentials"⟩
    | some secret =>
      if ¬ totpVerify (otp secret) totp_code now then
        ⟨401, .jsonError "Invalid code"⟩
      else
        let t := jwtEncode mac jwtSecret username (now + 15 * 60)
        ⟨200, .jsonLogin t.user t.exp t.sig username⟩

/-! ### Session manager and ephemeral port allocation

`active_sessions` maps session ids to session records; the forwarder
object is represented by the data the claims need (its `local_port`,
which `create_session` sets equal to the record's `ephemeral_port`).
`allocate_ephemeral_port` and the session insertion both run inside the
single `session_lock` critical section of `create_session`, so the pair
is modelled as one atomic state transition. -/

structure Config where
  proxyIp : String
  portMin : Nat
  portMax : Nat
  sessionTimeout : Nat
  deriving Repr

structure SessionInfo where
  node : String
  vmid : Nat
  username : String
  createdAt : Nat
  ephemeralPort : Nat
  deriving DecidableEq, Repr

abbrev Sessions := List (String × SessionInfo)

/-- Models `[s["forwarder"].local_port for s in active_sessions.values()]`. -/
def usedPorts (sessions : Sessions) : List Nat :=
  sessions.map (fun s => s.2.ephemeralPort)

/-- One draw of the allocation loop: `secrets.randbelow(MAX - MIN) + MIN`,
where `rand i` is the result of the i-th `randbelow` call (so `rand i <
MAX - MIN` whenever `MIN < MAX`). -/
def drawPort (cfg : Config) (rand : Nat → Nat) (i : Nat) : Nat :=
  rand i + cfg.portMin

/-- The retry loop of `allocate_ephemeral_port`, with explicit fuel:
draw a port, return it if no live session holds it, else retry. -/
def allocLoop (cfg : Config) (rand : Nat → Nat) (sessions : Sessions) :
    Nat → Nat → Option Nat
  | _, 0 => none
  | i, fuel + 1 =>
    let port := drawPort cfg rand i
    if port ∈ usedPorts sessions then allocLoop cfg rand sessions (i + 1) fuel
    else some port

/-- Models `allocate_ephemeral_port`: up to 100 draws, `none` models the
`RuntimeError("No available ephemeral ports")`. -/
def allocate_ephemeral_port (cfg : Config) (rand : Nat → Nat)
    (sessions : Sessions) : Option Nat :=
  allocLoop cfg rand sessions 0 100

/-- Models `create_session`: under `session_lock`, allocate a port and insert
the session record (the started forwarder's `local_port` is the
allocated port).  `none` models the propagating `RuntimeError`. -/
def create_session (cfg : Config) (rand : Nat → Nat) (sessions : Sessions)
    (session_id node : String) (vmid : Nat) (username : String) (now : Nat) :
    Option (Sessions × String × Nat) :=
  match allocate_ephemeral_port cfg rand sessions with
  | none => none
  | some port =>
    let info : SessionInfo := ⟨node, vmid, username, now, port⟩
    some (setA session_id info sessions, session_id, port)

/-- The session-reaper step and forwarder self-cleanup both just delete
entries from `active_sessions` under `session_lock`. -/
def removeSession (session_id : String) (sessions : Sessions) : Sessions :=
  eraseA session_id sessions

/-! ### Proxmox SPICE descriptor -/

def VV_FILE_FIELDS : List String :=
  ["release-cursor", "proxy", "secure-attention", "host-subject", "ca",
   "delete-this-file", "type", "title", "tls-port", "toggle-fullscreen",
   "host", "password"]

/-- Models `generate_spice_file`, after the upstream `spiceproxy` POST returned
the key/value map `data` (values already stringified the way the
f-string does): build the `[virt-viewer]` block line by line, skipping
absent keys and overriding `proxy` with the ephemeral endpoint. -/
def generate_spice_file (cfg : Config) (ephemeral_port : Nat)
    (data : String → Option String) : String :=
  let vv := VV_FILE_FIELDS.foldl
    (fun acc key =>
      match data key with
      | none => acc
      | some v =>
        let val := if key = "proxy" then
          "http://" ++ cfg.proxyIp ++ ":" ++ toString ephemeral_port
          else v
        acc ++ [key ++ "=" ++ val])
    ["[virt-viewer]"]
  String.intercalate "\n" vv

/-- Modelled from the spec (§4.6/§6.4), for comparison with
`generate_spice_file`: first line exactly `[virt-viewer]`, then exactly
the recognized keys present in the ticket, in the fixed order, each as
`key=value` on its own line, with the `proxy` value rewritten to the
broker's ephemeral endpoint and all other values passed through. -/
def render_descriptor_spec (cfg : Config) (ephemeral_port : Nat)
    (data : String → Option String) : String :=
  let present := VV_FILE_FIELDS.filter (fun k => (data k).isSome)
  let line := fun k =>
    k ++ "=" ++ (if k = "proxy" then
      "http://" ++ cfg.proxyIp ++ ":" ++ toString ephemeral_port
      else (data k).getD "")
  String.intercalate "\n" ("[virt-viewer]" :: present.map line)

/-- Models `GET /spice/<node>/<vmid>` after the auth guard admitted the user:
create the session, render the descriptor, 200; any exception (in
particular the port-exhaustion `RuntimeError`) is caught by the
handler's `try/except` and answered with 500. -/
def spice_file (cfg : Config) (rand : Nat → Nat) (sessions : Sessions)
    (session_id node : String) (vmid : Nat) (username : String) (now : Nat)
    (ticket : String → Option String) : HttpResponse × Sessions :=
  match create_session cfg rand sessions session_id node vmid username now with
  | none => (⟨500, .jsonError "Error generating SPICE file"⟩, sessions)
  | some (sessions', _, port) =>
    (⟨200, .vvFile (generate_spice_file cfg port ticket)⟩, sessions')

/-! ### Enrollment tokens (invite tokens) and their JSON sidecar -/

structure TokenInfo where
  createdAt : Nat
  expiresAt : Nat
  createdBy : String
  maxUses : Nat
  uses : Nat
  /-- Field `enrolled_users`: list of `(username, enrolled_at)` entries. -/
  enrolledUsers : List (String × Nat)
  deriving DecidableEq, Repr

abbrev TokenMap := List (String × TokenInfo)

/-- Models `validate_enrollment_token`: `(valid, message)` as returned to the
caller.  Expiry uses `datetime.now() > expires_at` (strict). -/
def validate_enrollment_token (tokens : TokenMap) (now : Nat)
    (token : String) : Bool × String :=
  match lookupA token tokens with
  | none => (false, "Invalid token")
  | some info =>
    if info.expiresAt < now then (false, "Token expired")
    else if info.maxUses ≤ info.uses then (false, "Token already used")
    else (true, "Valid")

/-- Models `consume_enrollment_token` without the sidecar write: increment
`uses`, record the enrolled user, delete the record when `uses`
reaches `max_uses`.  A missing token is silently ignored. -/
def consumeTokens (tokens : TokenMap) (now : Nat)
    (token username : String) : TokenMap :=
  match lookupA token tokens with
  | none => tokens
  | some info =>
    let info' : TokenInfo :=
      { info with
          uses := info.uses + 1
          enrolledUsers := info.enrolledUsers ++ [(username, now)] }
    if info'.maxUses ≤ info'.uses then eraseA token tokens
    else setA token info' tokens

/-! ### Server state touched by enrollment

`sidecarFile` holds the token map as last successfully written by
`save_enrollment_tokens` (i.e. what the next startup load would see);
`envFile` holds the credential lines appended to `.env`.  The boolean
write-outcome flags stand for the filesystem: `save_enrollment_tokens`
catches its own exceptions (the in-memory map mutates either way),
while a failing `.env` append makes `_add_user_to_config` roll back the
in-memory credential and re-raise. -/

structure EnrollState where
  userSecrets : List (String × String)
  enrollmentTokens : TokenMap
  pending : List (String × (String × String))
  sidecarFile : TokenMap
  envFile : List String
  deriving Repr

/-- Models `consume_enrollment_token` with its trailing
`save_enrollment_tokens()`; the sidecar write error, if any, is
swallowed (logged only). -/
def consume_enrollment_token (st : EnrollState) (now : Nat)
    (sidecarWriteOk : Bool) (token username : String) : EnrollState :=
  let tokens' := consumeTokens st.enrollmentTokens now token username
  { st with
      enrollmentTokens := tokens'
      sidecarFile := if sidecarWriteOk then tokens' else st.sidecarFile }

/-- Models `_add_user_to_config`: add the credential to the runtime map and
append it to `.env`; on a write error roll the runtime addition back
and re-raise (the `Except.error` case). -/
def _add_user_to_config (st : EnrollState) (envWriteOk : Bool)
    (username secret : String) : Except Unit EnrollState :=
  let added := { st with userSecrets := setA username secret st.userSecrets }
  if envWriteOk then
    .ok { added with
            envFile := added.envFile ++
              ["TOTP_SECRET_" ++ pyUpper username ++ "=" ++ secret] }
  else
    .error ()

/-- The username check of `POST /enroll`:
`not username.isalnum() or len(username) < 3 or len(username) > 32`
(rejected when this is `false`). -/
def usernameOk (username : String) : Bool :=
  pyIsAlnum username ∧ 3 ≤ username.length ∧ username.length ≤ 32

/-- Modelled from the spec (§4.3 step C1): the regex
`^[a-z0-9]{3,32}$` — 3 to 32 characters, each an ASCII lowercase
letter or digit. -/
def matchesSpecRegex (username : String) : Bool :=
  3 ≤ username.length ∧ username.length ≤ 32 ∧
  username.toList.all (fun c =>
    (48 ≤ c.toNat ∧ c.toNat ≤ 57) ∨ (97 ≤ c.toNat ∧ c.toNat ≤ 122))

/-- Models `POST /enroll`.  `token`, `username`, `totp_code` are the request
fields (`""` for absent, matching the `data.get(..., "")` defaults and
Python truthiness); `freshSecret` is the `pyotp.random_base32()` result
used on the begin-enrollment branch; `otp` is the TOTP code family;
`envWriteOk`/`sidecarWriteOk` are the persistence outcomes.  An
uncaught exception from `_add_user_to_config` becomes Flask's generic
500 with no state change beyond the rollback already performed. -/
def enroll_user (st : EnrollState) (now : Nat) (freshSecret : String)
    (otp : String → Int → String) (envWriteOk sidecarWriteOk : Bool)
    (token username0 totp_code : String) : HttpResponse × EnrollState :=
  let username := pyLower (pyStrip username0)
  if token = "" ∨ username = "" then
    (⟨400, .jsonError "Token and username required"⟩, st)
  else if ¬ usernameOk username then
    (⟨400, .jsonError "Username must be 3-32 alphanumeric characters"⟩, st)
  else if (lookupA username st.userSecrets).isSome then
    (⟨409, .jsonError "Username already exists"⟩, st)
  else
    match validate_enrollment_token st.enrollmentTokens now token with
    | (false, message) => (⟨403, .jsonError message⟩, st)
    | (true, _) =>
      if totp_code ≠ "" then
        -- confirmation step
        match lookupA token st.pending with
        | none =>
          (⟨400, .jsonError "No pending enrollment found. Please start over."⟩, st)
        | some (pendingUser, secret) =>
          if pendingUser ≠ username then
            (⟨400, .jsonError "No pending enrollment found. Please start over."⟩, st)
          else if ¬ totpVerify (otp secret) totp_code now then
            (⟨400, .jsonErrorStep "Invalid TOTP code. Please try again."
                "confirmation"⟩, st)
          else
            match _add_user_to_config st envWriteOk username secret with
            | .error _ => (⟨500, .internalServerError⟩, st)
            | .ok st1 =>
              let st2 := consume_enrollment_token st1 now sidecarWriteOk
                token username
              let st3 := { st2 with pending := eraseA token st2.pending }
              (⟨201, .jsonEnrolled username⟩, st3)
      else
        -- begin-enrollment step: store/overwrite the pending entry
        let st' := { st with
          pending := setA token (username, freshSecret) st.pending }
        (⟨200, .jsonPending username freshSecret
            ("otpauth://totp/ZeroSpice:" ++ username ++ "?secret=" ++
              freshSecret ++ "&issuer=ZeroSpice")⟩, st')

/-- Iterated `consume_enrollment_token` with successful sidecar writes,
used to state the exhaustion behaviour of invite tokens. -/
def consumeMany (now : Nat) (tok username : String) :
    Nat → EnrollState → EnrollState
  | 0, st => st
  | n + 1, st =>
    consumeMany now tok username n
      (consume_enrollment_token st now true tok username)

/-- The keys of an association list. -/
def keysA {α : Type} (l : List (String × α)) : List String := l.map Prod.fst

/-! ### Helper lemmas about the dict operations -/

theorem lookupA_setA_self {α : Type} (k : String) (v : α) :
    ∀ m : List (String × α), lookupA k (setA k v m) = some v := by
  intro m
  induction m with
  | nil => simp [setA, lookupA]
  | cons hd tl ih =>
    obtain ⟨k', v'⟩ := hd
    by_cases h : k = k'
    · simp [setA, lookupA, h]
    · simp [setA, lookupA, h, ih]

theorem keysA_setA_of_lookup {α : Type} (k : String) (v w : α) :
    ∀ m : List (String × α), lookupA k m = some w →
      keysA (setA k v m) = keysA m := by
  intro m
  induction m with
  | nil => intro h; simp [lookupA] at h
  | cons hd tl ih =>
    obtain ⟨k', v'⟩ := hd
    intro h
    by_cases hk : k = k'
    · simp [setA, keysA, hk]
    · simp [lookupA, hk] at h
      simp [setA, keysA, hk] at ih ⊢
      exact ih h

theorem setA_absent {α : Type} (k : String) (v : α) :
    ∀ m : List (String × α), lookupA k m = none →
      setA k v m = m ++ [(k, v)] := by
  intro m
  induction m with
  | nil => intro _; simp [setA]
  | cons hd tl ih =>
    obtain ⟨k', v'⟩ := hd
    intro h
    by_cases hk : k = k'
    · simp [lookupA, hk] at h
    · simp [lookupA, hk] at h
      simp [setA, hk, ih h]

theorem eraseA_sublist {α : Type} (k : String) :
    ∀ m : List (String × α), List.Sublist (eraseA k m) m := by
  intro m
  induction m with
  | nil => simp [eraseA]
  | cons hd tl ih =>
    obtain ⟨k', v'⟩ := hd
    by_cases hk : k = k'
    · simp [eraseA, hk]
    · simpa [eraseA, hk] using ih.cons₂ (k', v')

theorem lookupA_eq_none_of_not_mem {α : Type} (k : String) :
    ∀ m : List (String × α), k ∉ keysA m → lookupA k m = none := by
  intro m
  induction m with
  | nil => intro _; rfl
  | cons hd tl ih =>
    obtain ⟨k', v'⟩ := hd
    intro h
    simp [keysA] at h
    simp [lookupA, h.1, ih (by simpa [keysA] using h.2)]

theorem lookupA_eraseA_self {α : Type} (k : String) :
    ∀ m : List (String × α), (keysA m).Nodup →
      lookupA k (eraseA k m) = none := by
  intro m
  induction m with
  | nil => intro _; rfl
  | cons hd tl ih =>
    obtain ⟨k', v'⟩ := hd
    intro hnd
    simp [keysA] at hnd
    by_cases hk : k = k'
    · subst hk
      simp [eraseA]
      exact lookupA_eq_none_of_not_mem k tl (by simpa [keysA] using hnd.1)
    · simp [eraseA, hk, lookupA, ih hnd.2]

theorem keysA_eraseA_nodup {α : Type} (k : String) (m : List (String × α))
    (h : (keysA m).Nodup) : (keysA (eraseA k m)).Nodup :=
  ((eraseA_sublist k m).map Prod.fst).nodup h

/-! ### Helper lemmas about port allocation -/

theorem allocLoop_none_of_full (cfg : Config) (rand : Nat → Nat)
    (sessions : Sessions)
    (h : ∀ i, drawPort cfg rand i ∈ usedPorts sessions) :
    ∀ (fuel i : Nat), allocLoop cfg rand sessions i fuel = none := by
  intro fuel
  induction fuel with
  | zero => intro i; rfl
  | succ n ih => intro i; simp [allocLoop, h i, ih]

theorem allocLoop_some_spec (cfg : Config) (rand : Nat → Nat)
    (sessions : Sessions) :
    ∀ (fuel i p : Nat), allocLoop cfg rand sessions i fuel = some p →
      p ∉ usedPorts sessions ∧ ∃ j, p = drawPort cfg rand j := by
  intro fuel
  induction fuel with
  | zero => intro i p h; simp [allocLoop] at h
  | succ n ih =>
    intro i p h
    by_cases hmem : drawPort cfg rand i ∈ usedPorts sessions
    · simp [allocLoop, hmem] at h
      exact ih (i + 1) p h
    · simp [allocLoop, hmem] at h
      exact ⟨h ▸ hmem, i, h.symm⟩

/-- The port-uniqueness invariant of the session table: no two live
sessions share an `ephemeral_port`, and every port is in the configured
range `[MIN, MAX)`. -/
def portsOk (cfg : Config) (sessions : Sessions) : Prop :=
  (usedPorts sessions).Nodup ∧
  ∀ p ∈ usedPorts sessions, cfg.portMin ≤ p ∧ p < cfg.portMax

/-! ### Concrete instances used by witnesses and counterexamples -/

def randZero : Nat → Nat := fun _ => 0

def ticketEx : String → Option String := fun _ => none

/-- A configuration whose ephemeral range [40000, 40001) holds exactly
one port. -/
def cfgEx : Config := ⟨"10.0.0.1", 40000, 40001, 300⟩

/-- One live session occupying the single port of `cfgEx`. -/
def sessionsEx : Sessions := [("sid0", ⟨"pve", 100, "alice", 0, 40000⟩)]

/-! ### C1: response on ephemeral-port exhaustion -/

/-- C1 counterexample: with every port of the range `[40000, 40001)`
bound by a live session, `allocate_ephemeral_port` fails after its 100
retries, and `GET /spice/<node>/<vmid>` answers with HTTP 500, not the
503 the claim states. -/
theorem C1_counterexample :
    allocate_ephemeral_port cfgEx randZero sessionsEx = none ∧
    (spice_file cfgEx randZero sessionsEx "sid1" "pve" 101 "bob" 0
      ticketEx).1.status = 500 ∧
    (spice_file cfgEx randZero sessionsEx "sid1" "pve" 101 "bob" 0
      ticketEx).1.status ≠ 503 := by
  refine ⟨by decide, by decide, by decide⟩

/-- C1 (amended): when every port of the ephemeral range `[MIN, MAX)`
is bound by a live session, port allocation fails after its 100
retries, and the server responds with HTTP 500 and the generic
`Error generating SPICE file` error body (the session table is left
unchanged); it does not respond 503. -/
theorem C1_port_exhaustion_responds_500
    (cfg : Config) (rand : Nat → Nat) (sessions : Sessions)
    (sid node : String) (vmid : Nat) (username : String) (now : Nat)
    (ticket : String → Option String)
    (hrand : ∀ i, rand i < cfg.portMax - cfg.portMin)
    (hfull : ∀ p, cfg.portMin ≤ p → p < cfg.portMax → p ∈ usedPorts sessions) :
    spice_file cfg rand sessions sid node vmid username now ticket =
      (⟨500, .jsonError "Error generating SPICE file"⟩, sessions) := by
  have hdraw : ∀ i, drawPort cfg rand i ∈ usedPorts sessions := by
    intro i
    have hi := hrand i
    apply hfull
    · simp [drawPort]
    · simp only [drawPort]
      omega
  have halloc : allocate_ephemeral_port cfg rand sessions = none :=
    allocLoop_none_of_full cfg rand sessions hdraw 100 0
  simp [spice_file, create_session, halloc]

/-- C1 witness: the amended theorem applied to the concrete exhausted
configuration. -/
theorem C1_witness :
    spice_file cfgEx randZero sessionsEx "sid1" "pve" 101 "bob" 0 ticketEx =
      (⟨500, .jsonError "Error generating SPICE file"⟩, sessionsEx) := by
  apply C1_port_exhaustion_responds_500
  · intro i; simp [cfgEx, randZero]
  · intro p h1 h2
    have hp : p = 40000 := by
      simp [cfgEx] at h1 h2
      omega
    simp [hp, usedPorts, sessionsEx]

/-! ### C7: port uniqueness across live sessions -/

/-- C7: if the session table satisfies the port-uniqueness invariant
(pairwise-distinct ports, all in `[MIN, MAX)`), then a successful
`create_session` — whose allocation (random draw, reject ports bound by
a live session, 100 retries) and insertion form one critical section —
yields a table that still satisfies it, the allocated port was not held
by any live session and lies in `[MIN, MAX)`, and session removal also
preserves the invariant. -/
theorem C7_port_uniqueness_preserved
    (cfg : Config) (rand : Nat → Nat) (sessions sessions' : Sessions)
    (sid sid' node : String) (vmid : Nat) (username : String) (now : Nat)
    (port : Nat)
    (hrand : ∀ i, rand i < cfg.portMax - cfg.portMin)
    (hfresh : lookupA sid sessions = none)
    (hinv : portsOk cfg sessions)
    (hstep : create_session cfg rand sessions sid node vmid username now =
      some (sessions', sid', port)) :
    portsOk cfg sessions' ∧ port ∉ usedPorts sessions ∧
      cfg.portMin ≤ port ∧ port < cfg.portMax ∧
      (∀ s, portsOk cfg (removeSession s sessions)) := by
  have hremove : ∀ s, portsOk cfg (removeSession s sessions) := by
    intro s
    have hsub : List.Sublist (usedPorts (removeSession s sessions))
        (usedPorts sessions) := (eraseA_sublist s sessions).map _
    exact ⟨hsub.nodup hinv.1, fun p hp => hinv.2 p (hsub.subset hp)⟩
  unfold create_session at hstep
  cases halloc : allocate_ephemeral_port cfg rand sessions with
  | none => rw [halloc] at hstep; simp at hstep
  | some q =>
    rw [halloc] at hstep
    simp at hstep
    obtain ⟨hs', _, hq⟩ := hstep
    rw [hq] at hs' halloc
    obtain ⟨hnotmem, j, hj⟩ :=
      allocLoop_some_spec cfg rand sessions 100 0 port halloc
    have hlo : cfg.portMin ≤ port := by
      simp only [hj, drawPort]; omega
    have hhi : port < cfg.portMax := by
      have := hrand j
      simp only [hj, drawPort]; omega
    have hused : usedPorts sessions' =
        usedPorts sessions ++ [port] := by
      rw [← hs', setA_absent sid _ sessions hfresh]
      simp [usedPorts]
    refine ⟨⟨?_, ?_⟩, hnotmem, hlo, hhi, hremove⟩
    · rw [hused]
      simp [List.nodup_append, hinv.1, hnotmem]
    · intro p hp
      rw [hused] at hp
      rcases List.mem_append.mp hp with h | h
      · exact hinv.2 p h
      · simp at h
        subst h
        exact ⟨hlo, hhi⟩

/-- C7 witness: the theorem applied to the empty session table with a
1000-port range. -/
theorem C7_witness :
    portsOk ⟨"10.0.0.1", 40000, 41000, 300⟩
      [("sid1", ⟨"pve", 100, "alice", 7, 40000⟩)] := by
  have h := C7_port_uniqueness_preserved ⟨"10.0.0.1", 40000, 41000, 300⟩
    randZero [] [("sid1", ⟨"pve", 100, "alice", 7, 40000⟩)]
    "sid1" "sid1" "pve" 100 "alice" 7 40000
    (fun i => by show (0 : Nat) < 41000 - 40000; decide) rfl
    (by constructor <;> simp [usedPorts]) (by decide)
  exact h.1

/-- A constant TOTP code family for witnesses: every secret yields
code `000000` at every time step. -/
def otpConst : String → Int → String := fun _ _ => "000000"

/-- A constant MAC for witnesses. -/
def macZero : String → String → Nat → Nat := fun _ _ _ => 0

/-! ### C2: wording of the two login failures -/

/-- C2 counterexample: with `alice` the only configured user, a login
with unknown username `bob` is answered with body `Invalid credentials`
while a login as `alice` with a wrong TOTP code is answered with body
`Invalid code`; the two client-visible bodies differ, so the responses
do distinguish unknown-user from bad-code. -/
theorem C2_counterexample :
    login [("alice", "S")] otpConst macZero "jwt" 1000 "bob" "111111" =
      ⟨401, .jsonError "Invalid credentials"⟩ ∧
    login [("alice", "S")] otpConst macZero "jwt" 1000 "alice" "111111" =
      ⟨401, .jsonError "Invalid code"⟩ ∧
    Body.jsonError "Invalid credentials" ≠ Body.jsonError "Invalid code" := by
  exact ⟨by decide, by decide, by decide⟩

/-- C2 (amended): both login failures carry status 401, but their
bodies differ: an unknown username yields `Invalid credentials` while a
known username with a non-verifying TOTP code yields `Invalid code`, so
the client-visible error does distinguish the two cases. -/
theorem C2_failure_bodies_differ
    (userSecrets : List (String × String)) (otp : String → Int → String)
    (mac : String → String → Nat → Nat) (jwtSecret : String) (now : Nat)
    (u1 c1 u2 c2 s2 : String)
    (h1 : u1 ≠ "") (h2 : c1 ≠ "")
    (h3 : lookupA (pyLower u1) userSecrets = none)
    (h4 : u2 ≠ "") (h5 : c2 ≠ "")
    (h6 : lookupA (pyLower u2) userSecrets = some s2)
    (h7 : totpVerify (otp s2) c2 now = false) :
    login userSecrets otp mac jwtSecret now u1 c1 =
      ⟨401, .jsonError "Invalid credentials"⟩ ∧
    login userSecrets otp mac jwtSecret now u2 c2 =
      ⟨401, .jsonError "Invalid code"⟩ ∧
    (login userSecrets otp mac jwtSecret now u1 c1).body ≠
      (login userSecrets otp mac jwtSecret now u2 c2).body := by
  have e1 : login userSecrets otp mac jwtSecret now u1 c1 =
      ⟨401, .jsonError "Invalid credentials"⟩ := by
    simp [login, h1, h2, h3]
  have e2 : login userSecrets otp mac jwtSecret now u2 c2 =
      ⟨401, .jsonError "Invalid code"⟩ := by
    simp [login, h4, h5, h6, h7]
  refine ⟨e1, e2, ?_⟩
  rw [e1, e2]
  decide

/-- C2 witness: the amended theorem at the concrete one-user store. -/
theorem C2_witness :
    login [("alice", "S")] otpConst macZero "jwt" 99 "bob" "1" =
      ⟨401, .jsonError "Invalid credentials"⟩ ∧
    login [("alice", "S")] otpConst macZero "jwt" 99 "alice" "1" =
      ⟨401, .jsonError "Invalid code"⟩ ∧
    (login [("alice", "S")] otpConst macZero "jwt" 99 "bob" "1").body ≠
      (login [("alice", "S")] otpConst macZero "jwt" 99 "alice" "1").body :=
  C2_failure_bodies_differ [("alice", "S")] otpConst macZero "jwt" 99
    "bob" "1" "alice" "1" "S" (by decide) (by decide) (by decide)
    (by decide) (by decide) (by decide) (by decide)

/-! ### C3: successful login -/

/-- C3 counterexample: the credential store holds `alice`; a login as
`Alice` with a correct code succeeds (the lookup lowercases the
username), yet the minted token carries subject `Alice`, not the
normalized `alice` the claim states. -/
theorem C3_counterexample :
    login [("alice", "S")] otpConst macZero "jwt" 90 "Alice" "000000" =
      ⟨200, .jsonLogin "Alice" 990 0 "Alice"⟩ ∧
    pyLower "Alice" ≠ "Alice" := by
  exact ⟨by decide, by decide⟩

/-- C3 (amended): on login with a nonempty username and code whose
lowercased username resolves to a credential, the code is accepted iff
it verifies within a ±1 step window of the current 30-second interval,
and on success the token is HMAC-signed with the configured secret and
carries `expires_at = now + 15 minutes` — but its subject is the
username exactly as submitted, not the lowercased form used for the
lookup. -/
theorem C3_login_success_characterization
    (userSecrets : List (String × String)) (otp : String → Int → String)
    (mac : String → String → Nat → Nat) (jwtSecret : String) (now : Nat)
    (username code secret : String)
    (h1 : username ≠ "") (h2 : code ≠ "")
    (h3 : lookupA (pyLower username) userSecrets = some secret) :
    ((login userSecrets otp mac jwtSecret now username code).status = 200 ↔
      (code = otp secret ((now : Int) / 30 - 1) ∨
       code = otp secret ((now : Int) / 30) ∨
       code = otp secret ((now : Int) / 30 + 1))) ∧
    (totpVerify (otp secret) code now = true →
      login userSecrets otp mac jwtSecret now username code =
        ⟨200, .jsonLogin username (now + 15 * 60)
          (mac jwtSecret username (now + 15 * 60)) username⟩) ∧
    (totpVerify (otp secret) code now = false →
      login userSecrets otp mac jwtSecret now username code =
        ⟨401, .jsonError "Invalid code"⟩) := by
  by_cases hv : totpVerify (otp secret) code now = true
  · have e : login userSecrets otp mac jwtSecret now username code =
        ⟨200, .jsonLogin username (now + 15 * 60)
          (mac jwtSecret username (now + 15 * 60)) username⟩ := by
      simp [login, h1, h2, h3, hv, jwtEncode]
    refine ⟨?_, fun _ => e, fun hf => ?_⟩
    · rw [e]
      exact iff_of_true rfl (by simpa [totpVerify] using hv)
    · rw [hf] at hv
      cases hv
  · have hv' : totpVerify (otp secret) code now = false := by
      simpa using hv
    have e : login userSecrets otp mac jwtSecret now username code =
        ⟨401, .jsonError "Invalid code"⟩ := by
      simp [login, h1, h2, h3, hv']
    refine ⟨?_, fun ht => ?_, fun _ => e⟩
    · rw [e]
      exact iff_of_false (by decide) (by simpa [totpVerify] using hv')
    · rw [ht] at hv'
      cases hv'

/-- C3 witness: applying the characterization at the matching-code
instance. -/
theorem C3_witness :
    login [("alice", "S")] otpConst macZero "jwt" 90 "alice" "000000" =
      ⟨200, .jsonLogin "alice" (90 + 15 * 60)
        (macZero "jwt" "alice" (90 + 15 * 60)) "alice"⟩ :=
  (C3_login_success_characterization [("alice", "S")] otpConst macZero
    "jwt" 90 "alice" "000000" "S" (by decide) (by decide)
    (by decide)).2.1 (by decide)

/-! ### C4: the bearer-token guard -/

theorem jwtDecode_ok (mac : String → String → Nat → Nat) (secret : String)
    (now : Nat) (t : Jwt) (hm : mac secret t.user t.exp = t.sig)
    (he : now < t.exp) : jwtDecode mac secret now t = .ok t.user := by
  unfold jwtDecode
  rw [if_neg (by simp [hm]), if_neg (by omega)]

theorem jwtDecode_expired (mac : String → String → Nat → Nat)
    (secret : String) (now : Nat) (t : Jwt)
    (hm : mac secret t.user t.exp = t.sig) (he : t.exp ≤ now) :
    jwtDecode mac secret now t = .error .expired := by
  unfold jwtDecode
  rw [if_neg (by simp [hm]), if_pos he]

theorem jwtDecode_invalid (mac : String → String → Nat → Nat)
    (secret : String) (now : Nat) (t : Jwt)
    (hm : mac secret t.user t.exp ≠ t.sig) :
    jwtDecode mac secret now t = .error .invalid := by
  unfold jwtDecode
  rw [if_pos (fun h => hm h.symm)]

/-- C4: the guard admits a request iff a token is presented whose
HMAC signature validates under the configured secret and whose expiry
is in the future; the three failures — no token, expired token (valid
signature, expiry passed), invalid token (bad signature) — are each
answered 401 with pairwise-distinct error bodies. -/
theorem C4_require_auth_characterization
    (mac : String → String → Nat → Nat) (secret : String) (now : Nat) :
    (require_auth mac secret now none =
      .error ⟨401, .jsonError "No token provided"⟩) ∧
    (∀ t : Jwt, mac secret t.user t.exp = t.sig → now < t.exp →
      require_auth mac secret now (some t) = .ok t.user) ∧
    (∀ t : Jwt, (∃ u, require_auth mac secret now (some t) = .ok u) ↔
      (mac secret t.user t.exp = t.sig ∧ now < t.exp)) ∧
    (∀ t : Jwt, mac secret t.user t.exp ≠ t.sig →
      require_auth mac secret now (some t) =
        .error ⟨401, .jsonError "Invalid token"⟩) ∧
    (∀ t : Jwt, mac secret t.user t.exp = t.sig → t.exp ≤ now →
      require_auth mac secret now (some t) =
        .error ⟨401, .jsonError "Token expired"⟩) ∧
    (Body.jsonError "No token provided" ≠ Body.jsonError "Token expired" ∧
     Body.jsonError "No token provided" ≠ Body.jsonError "Invalid token" ∧
     Body.jsonError "Token expired" ≠ Body.jsonError "Invalid token") := by
  have hok : ∀ t : Jwt, mac secret t.user t.exp = t.sig → now < t.exp →
      require_auth mac secret now (some t) = .ok t.user := by
    intro t hm he
    simp [require_auth, jwtDecode_ok mac secret now t hm he]
  have hinv : ∀ t : Jwt, mac secret t.user t.exp ≠ t.sig →
      require_auth mac secret now (some t) =
        .error ⟨401, .jsonError "Invalid token"⟩ := by
    intro t hm
    simp [require_auth, jwtDecode_invalid mac secret now t hm]
  have hexp : ∀ t : Jwt, mac secret t.user t.exp = t.sig → t.exp ≤ now →
      require_auth mac secret now (some t) =
        .error ⟨401, .jsonError "Token expired"⟩ := by
    intro t hm he
    simp [require_auth, jwtDecode_expired mac secret now t hm he]
  refine ⟨rfl, hok, ?_, hinv, hexp, by decide, by decide, by decide⟩
  intro t
  constructor
  · rintro ⟨u, hu⟩
    by_cases hm : mac secret t.user t.exp = t.sig
    · by_cases he : now < t.exp
      · exact ⟨hm, he⟩
      · rw [hexp t hm (by omega)] at hu
        cases hu
    · rw [hinv t hm] at hu
      cases hu
  · rintro ⟨hm, he⟩
    exact ⟨t.user, hok t hm he⟩

/-- C4 witness: guard outcomes at concrete tokens. -/
theorem C4_witness :
    require_auth macZero "jwt" 100 (some ⟨"carol", 200, 0⟩) = .ok "carol" ∧
    require_auth macZero "jwt" 100 none =
      .error ⟨401, .jsonError "No token provided"⟩ ∧
    require_auth macZero "jwt" 100 (some ⟨"carol", 50, 0⟩) =
      .error ⟨401, .jsonError "Token expired"⟩ ∧
    require_auth macZero "jwt" 100 (some ⟨"carol", 200, 7⟩) =
      .error ⟨401, .jsonError "Invalid token"⟩ := by
  have h := C4_require_auth_characterization macZero "jwt" 100
  exact ⟨h.2.1 ⟨"carol", 200, 0⟩ rfl (by decide), h.1,
    h.2.2.2.2.1 ⟨"carol", 50, 0⟩ rfl (by decide),
    h.2.2.2.1 ⟨"carol", 200, 7⟩ (by decide)⟩

/-! ### C5: invite-token validation and exhaustion -/

/-- A single-use invite token created at 0, expiring at 1000. -/
def inviteMax1 : TokenInfo := ⟨0, 1000, "admin", 1, 0, []⟩

/-- C5 counterexample: after the single consumption of a `max_uses = 1`
invite token the record is deleted outright, so validating it reports
`Invalid token` — exactly the answer an unknown token gets — rather
than the exhausted/used answer the claim states. -/
theorem C5_counterexample :
    validate_enrollment_token (consumeTokens [("T", inviteMax1)] 10 "T" "bob")
      20 "T" = (false, "Invalid token") ∧
    validate_enrollment_token [("T", inviteMax1)] 20 "X" =
      (false, "Invalid token") ∧
    "Invalid token" ≠ "Token already used" := by
  exact ⟨by decide, by decide, by decide⟩

theorem consumeMany_removes (now : Nat) (tok u : String) :
    ∀ (n : Nat) (st : EnrollState) (info : TokenInfo),
      (keysA st.enrollmentTokens).Nodup →
      lookupA tok st.enrollmentTokens = some info →
      info.uses + (n + 1) = info.maxUses →
      lookupA tok (consumeMany now tok u (n + 1) st).enrollmentTokens = none ∧
      lookupA tok (consumeMany now tok u (n + 1) st).sidecarFile = none := by
  intro n
  induction n with
  | zero =>
    intro st info hnd hlk hcnt
    have hmax : info.maxUses ≤ info.uses + 1 := by omega
    have herase : consumeTokens st.enrollmentTokens now tok u =
        eraseA tok st.enrollmentTokens := by
      simp [consumeTokens, hlk, hmax]
    have hnone : lookupA tok (eraseA tok st.enrollmentTokens) = none :=
      lookupA_eraseA_self tok st.enrollmentTokens hnd
    simp [consumeMany, consume_enrollment_token, herase, hnone]
  | succ m ih =>
    intro st info hnd hlk hcnt
    have hmax : ¬ info.maxUses ≤ info.uses + 1 := by omega
    have hset : consumeTokens st.enrollmentTokens now tok u =
        setA tok
          { info with
              uses := info.uses + 1
              enrolledUsers := info.enrolledUsers ++ [(u, now)] }
          st.enrollmentTokens := by
      simp [consumeTokens, hlk, hmax]
    have hstep : consumeMany now tok u (m + 1 + 1) st =
        consumeMany now tok u (m + 1)
          (consume_enrollment_token st now true tok u) := rfl
    rw [hstep]
    apply ih
    · simp only [consume_enrollment_token, hset]
      rw [keysA_setA_of_lookup tok _ info st.enrollmentTokens hlk]
      exact hnd
    · simp only [consume_enrollment_token, hset]
      exact lookupA_setA_self tok _ st.enrollmentTokens
    · simp only [TokenInfo.mk.injEq]
      omega

/-- C5 (amended): an invite token validates as consumable iff it
exists, is not expired, and `uses < max_uses`; but after exactly
`max_uses` successful consumptions its record is deleted outright, so
the in-memory table and the sidecar no longer hold it, and validating
it reports `Invalid token` — indistinguishable from an unknown token,
not an exhausted/used answer. -/
theorem C5_invite_token_lifecycle
    (st : EnrollState) (now now2 : Nat) (tok u : String) (info : TokenInfo)
    (hnd : (keysA st.enrollmentTokens).Nodup)
    (hlk : lookupA tok st.enrollmentTokens = some info)
    (hlt : info.uses < info.maxUses) :
    (∀ (tokens : TokenMap) (t : String) (now' : Nat),
      (validate_enrollment_token tokens now' t).1 = true ↔
      ∃ i, lookupA t tokens = some i ∧ now' ≤ i.expiresAt ∧
        i.uses < i.maxUses) ∧
    lookupA tok
      (consumeMany now tok u (info.maxUses - info.uses) st).enrollmentTokens
      = none ∧
    lookupA tok
      (consumeMany now tok u (info.maxUses - info.uses) st).sidecarFile
      = none ∧
    validate_enrollment_token
      (consumeMany now tok u (info.maxUses - info.uses) st).enrollmentTokens
      now2 tok = (false, "Invalid token") := by
  have hiff : ∀ (tokens : TokenMap) (t : String) (now' : Nat),
      (validate_enrollment_token tokens now' t).1 = true ↔
      ∃ i, lookupA t tokens = some i ∧ now' ≤ i.expiresAt ∧
        i.uses < i.maxUses := by
    intro tokens t now'
    cases h : lookupA t tokens with
    | none => simp [validate_enrollment_token, h]
    | some i =>
      by_cases h1 : i.expiresAt < now'
      · simp [validate_enrollment_token, h, h1]
      · by_cases h2 : i.maxUses ≤ i.uses
        · simp [validate_enrollment_token, h, h1, h2]
        · simp [validate_enrollment_token, h, h1, h2]
          omega
  obtain ⟨n, hn⟩ : ∃ n, info.maxUses - info.uses = n + 1 :=
    ⟨info.maxUses - info.uses - 1, by omega⟩
  rw [hn]
  have h := consumeMany_removes now tok u n st info hnd hlk (by omega)
  refine ⟨hiff, h.1, h.2, ?_⟩
  simp [validate_enrollment_token, h.1]

/-- C5 witness: the lifecycle theorem at a concrete one-use token. -/
theorem C5_witness :
    lookupA "T" (consumeMany 10 "T" "bob"
      (inviteMax1.maxUses - inviteMax1.uses)
      ⟨[], [("T", inviteMax1)], [], [("T", inviteMax1)], []⟩).enrollmentTokens
      = none ∧
    lookupA "T" (consumeMany 10 "T" "bob"
      (inviteMax1.maxUses - inviteMax1.uses)
      ⟨[], [("T", inviteMax1)], [], [("T", inviteMax1)], []⟩).sidecarFile
      = none ∧
    validate_enrollment_token (consumeMany 10 "T" "bob"
      (inviteMax1.maxUses - inviteMax1.uses)
      ⟨[], [("T", inviteMax1)], [], [("T", inviteMax1)], []⟩).enrollmentTokens
      20 "T" = (false, "Invalid token") := by
  have h := C5_invite_token_lifecycle
    ⟨[], [("T", inviteMax1)], [], [("T", inviteMax1)], []⟩ 10 20 "T" "bob"
    inviteMax1 (by simp [keysA]) (by decide) (by decide)
  exact ⟨h.2.1, h.2.2.1, h.2.2.2⟩

/-! ### C6: username validation on POST /enroll -/

/-- The empty enrollment state. -/
def stEmpty : EnrollState := ⟨[], [], [], [], []⟩

/-- C6 counterexample: the normalized username `ééé` (three Latin-1
letters, Unicode-alphanumeric for Python's `str.isalnum`) does not
match the regex `^[a-z0-9]\x7b3,32\x7d$`, yet `POST /enroll` does not
reject it with 400 — it proceeds to consult the invite-token state and
answers 403 `Invalid token`. -/
theorem C6_counterexample :
    matchesSpecRegex (pyLower (pyStrip "ééé")) = false ∧
    (enroll_user stEmpty 0 "SECRET" otpConst true true "T" "ééé" "").1 =
      ⟨403, .jsonError "Invalid token"⟩ := by
  exact ⟨by decide, by decide⟩

/-- C6 (amended): the check `POST /enroll` actually applies to the
lowercased, stripped username is Python's `isalnum` (any Unicode
alphanumeric characters) plus a 3–32 length bound.  Every string
matching `^[a-z0-9]\x7b3,32\x7d$` passes that check, but it is strictly
weaker (e.g. `ééé` passes it while failing the regex); whenever the
check fails, the request is rejected with 400 and the
state — invite tokens, credentials, pending enrollments — is neither
consulted nor mutated (the response is the same for every state and
the state is returned unchanged). -/
theorem C6_username_check
    (st : EnrollState) (now : Nat) (freshSecret : String)
    (otp : String → Int → String) (ewo swo : Bool)
    (token username code : String) :
    (∀ u : String, matchesSpecRegex u = true → usernameOk u = true) ∧
    (token ≠ "" → pyLower (pyStrip username) ≠ "" →
      usernameOk (pyLower (pyStrip username)) = false →
      enroll_user st now freshSecret otp ewo swo token username code =
        (⟨400, .jsonError "Username must be 3-32 alphanumeric characters"⟩,
          st)) := by
  constructor
  · intro u h
    simp only [matchesSpecRegex, List.all_eq_true, decide_eq_true_eq] at h
    obtain ⟨hlen1, hlen2, hall⟩ := h
    have hne : u ≠ "" := by
      intro he
      rw [he] at hlen1
      simp at hlen1
    simp only [usernameOk, pyIsAlnum, List.all_eq_true, decide_eq_true_eq]
    refine ⟨⟨hne, ?_⟩, hlen1, hlen2⟩
    intro c hc
    have := hall c hc
    simp only [pyIsAlnumChar, decide_eq_true_eq]
    omega
  · intro ht hu hok
    simp [enroll_user, ht, hu, hok]

/-- C6 witness: a malformed username (`bob!`) is rejected with 400 and
the state is untouched; and a regex-matching username passes the
code's check. -/
theorem C6_witness :
    enroll_user stEmpty 5 "SEC" otpConst true true "T" "bob!" "" =
      (⟨400, .jsonError "Username must be 3-32 alphanumeric characters"⟩,
        stEmpty) ∧
    usernameOk "abc" = true := by
  have h := C6_username_check stEmpty 5 "SEC" otpConst true true "T" "bob!" ""
  exact ⟨h.2 (by decide) (by decide) (by decide), h.1 "abc" (by decide)⟩

/-! ### C8: the rendered SPICE descriptor -/

/-- C8: for every upstream ticket map and ephemeral port, the
descriptor `generate_spice_file` renders is exactly the spec-described
one: first line `[virt-viewer]`, then exactly the recognized keys
present in the ticket, in the fixed `VV_FILE_FIELDS` order, each as
`key=value` on its own line, with the `proxy` value rewritten to the
broker's ephemeral endpoint and every other value passed through. -/
theorem C8_descriptor_rendering
    (cfg : Config) (ephemeral_port : Nat) (data : String → Option String) :
    generate_spice_file cfg ephemeral_port data =
      render_descriptor_spec cfg ephemeral_port data := by
  have hfold : ∀ (fields : List String) (acc : List String),
      fields.foldl
        (fun acc key =>
          match data key with
          | none => acc
          | some v =>
            let val := if key = "proxy" then
              "http://" ++ cfg.proxyIp ++ ":" ++ toString ephemeral_port
              else v
            acc ++ [key ++ "=" ++ val])
        acc =
      acc ++ (fields.filter (fun k => (data k).isSome)).map
        (fun k => k ++ "=" ++ (if k = "proxy" then
          "http://" ++ cfg.proxyIp ++ ":" ++ toString ephemeral_port
          else (data k).getD "")) := by
    intro fields
    induction fields with
    | nil => intro acc; simp
    | cons k t ih =>
      intro acc
      cases hk : data k with
      | none => simp [List.foldl_cons, hk, ih]
      | some v => simp [List.foldl_cons, hk, ih]
  unfold generate_spice_file render_descriptor_spec
  rw [hfold ]
  rfl

/-! ### C9: persistence-failure semantics of enrollment confirmation -/

/-- A state mid-enrollment: one single-use invite `T`, a pending
enrollment binding `T` to `(bob, S)`, the sidecar in sync. -/
def stC9 : EnrollState :=
  ⟨[], [("T", inviteMax1)], [("T", ("bob", "S"))], [("T", inviteMax1)], []⟩

/-- C9 counterexample: when the invite-sidecar write fails during an
enrollment confirmation (`sidecarWriteOk = false`), the request still
succeeds with 201 — not the 500 the claim states — and the new
credential stays in the in-memory user store. -/
theorem C9_counterexample :
    (enroll_user stC9 10 "F" otpConst true false "T" "bob" "000000").1 =
      ⟨201, .jsonEnrolled "bob"⟩ ∧
    (enroll_user stC9 10 "F" otpConst true false "T" "bob" "000000").1.status
      ≠ 500 ∧
    lookupA "bob"
      (enroll_user stC9 10 "F" otpConst true false "T" "bob"
        "000000").2.userSecrets = some "S" := by
  exact ⟨by decide, by decide, by decide⟩

/-- C9 (amended): in an enrollment confirmation that has passed every
check, a failing credential-file (`.env`) write makes the request fail
with Flask's generic 500 and rolls the in-memory credential back (the
state is returned exactly as it was); a failing invite-sidecar write,
however, is logged and swallowed: the request still returns 201, the
credential stays in the in-memory store, and only the on-disk sidecar
is left stale. -/
theorem C9_persistence_failure_semantics
    (st : EnrollState) (now : Nat) (fresh : String)
    (otp : String → Int → String) (swo : Bool)
    (token username code secret : String)
    (h1 : token ≠ "")
    (h2 : pyLower (pyStrip username) = username)
    (h3 : username ≠ "")
    (h4 : usernameOk username = true)
    (h5 : lookupA username st.userSecrets = none)
    (h6 : validate_enrollment_token st.enrollmentTokens now token =
      (true, "Valid"))
    (h7 : code ≠ "")
    (h8 : lookupA token st.pending = some (username, secret))
    (h9 : totpVerify (otp secret) code now = true) :
    (enroll_user st now fresh otp false swo token username code =
      (⟨500, .internalServerError⟩, st)) ∧
    ((enroll_user st now fresh otp true false token username code).1 =
      ⟨201, .jsonEnrolled username⟩ ∧
     lookupA username
       (enroll_user st now fresh otp true false token username
         code).2.userSecrets = some secret ∧
     (enroll_user st now fresh otp true false token username
       code).2.sidecarFile = st.sidecarFile) := by
  constructor
  · simp [enroll_user, h1, h2, h3, h4, h5, h6, h7, h8, h9,
      _add_user_to_config]
  · simp [enroll_user, h1, h2, h3, h4, h5, h6, h7, h8, h9,
      _add_user_to_config, consume_enrollment_token, lookupA_setA_self]

/-- C9 witness: both failure modes at the concrete mid-enrollment
state. -/
theorem C9_witness :
    enroll_user stC9 10 "F" otpConst false true "T" "bob" "000000" =
      (⟨500, .internalServerError⟩, stC9) ∧
    (enroll_user stC9 10 "F" otpConst true false "T" "bob" "000000").1 =
      ⟨201, .jsonEnrolled "bob"⟩ ∧
    lookupA "bob"
      (enroll_user stC9 10 "F" otpConst true false "T" "bob"
        "000000").2.userSecrets = some "S" ∧
    (enroll_user stC9 10 "F" otpConst true false "T" "bob"
      "000000").2.sidecarFile = stC9.sidecarFile := by
  have h := C9_persistence_failure_semantics stC9 10 "F" otpConst true
    "T" "bob" "000000" "S" (by decide) (by decide) (by decide) (by decide)
    (by decide) (by decide) (by decide) (by decide) (by decide)
  exact ⟨h.1, h.2.1, h.2.2.1, h.2.2.2⟩

/-! ### C10: begin-enrollment overwrites the pending entry -/

/-- C10: a begin-enrollment request that passes validation stores its
`(username, fresh secret)` under the invite token by plain dict
assignment, overwriting any pending record already keyed by that
token; consequently, after a second begin-enrollment with the same
token for a different username, a confirmation for the earlier
username fails 400 with `No pending enrollment found`, leaving the
state unchanged. -/
theorem C10_pending_overwrite
    (st : EnrollState) (now : Nat) (fresh fresh2 : String)
    (otp : String → Int → String) (ewo swo : Bool)
    (token u1 s1 u2 c : String)
    (hpend : lookupA token st.pending = some (u1, s1))
    (hne : u1 ≠ u2)
    (h1 : token ≠ "")
    (hu2norm : pyLower (pyStrip u2) = u2) (hu2ne : u2 ≠ "")
    (hu2ok : usernameOk u2 = true)
    (hu2free : lookupA u2 st.userSecrets = none)
    (hval : validate_enrollment_token st.enrollmentTokens now token =
      (true, "Valid"))
    (hu1norm : pyLower (pyStrip u1) = u1) (hu1ne : u1 ≠ "")
    (hu1ok : usernameOk u1 = true)
    (hu1free : lookupA u1 st.userSecrets = none)
    (hc : c ≠ "") :
    lookupA token
      (enroll_user st now fresh otp ewo swo token u2 "").2.pending =
      some (u2, fresh) ∧
    enroll_user (enroll_user st now fresh otp ewo swo token u2 "").2
      now fresh2 otp ewo swo token u1 c =
      (⟨400, .jsonError "No pending enrollment found. Please start over."⟩,
        (enroll_user st now fresh otp ewo swo token u2 "").2) := by
  have hst' : (enroll_user st now fresh otp ewo swo token u2 "").2 =
      { st with pending := setA token (u2, fresh) st.pending } := by
    simp [enroll_user, h1, hu2norm, hu2ne, hu2ok, hu2free, hval]
  rw [hst']
  constructor
  · exact lookupA_setA_self token (u2, fresh) st.pending
  · simp [enroll_user, h1, hu1norm, hu1ne, hu1ok, hu1free, hval, hc,
      lookupA_setA_self, Ne.symm hne]

/-- C10 witness: with `bob`'s pending record for token `T`, a second
begin-enrollment for `eve` replaces it, and `bob`'s confirmation then
fails 400. -/
theorem C10_witness :
    lookupA "T"
      (enroll_user ⟨[], [("T", inviteMax1)], [("T", ("bob", "S1"))],
        [("T", inviteMax1)], []⟩ 10 "S2" otpConst true true "T" "eve"
        "").2.pending = some ("eve", "S2") ∧
    enroll_user
      (enroll_user ⟨[], [("T", inviteMax1)], [("T", ("bob", "S1"))],
        [("T", inviteMax1)], []⟩ 10 "S2" otpConst true true "T" "eve" "").2
      10 "S3" otpConst true true "T" "bob" "000000" =
      (⟨400, .jsonError "No pending enrollment found. Please start over."⟩,
        (enroll_user ⟨[], [("T", inviteMax1)], [("T", ("bob", "S1"))],
          [("T", inviteMax1)], []⟩ 10 "S2" otpConst true true "T" "eve"
          "").2) := by
  have h := C10_pending_overwrite
    ⟨[], [("T", inviteMax1)], [("T", ("bob", "S1"))], [("T", inviteMax1)], []⟩
    10 "S2" "S3" otpConst true true "T" "bob" "S1" "eve" "000000"
    (by decide) (by decide) (by decide) (by decide) (by decide) (by decide)
    (by decide) (by decide) (by decide) (by decide) (by decide) (by decide)
    (by decide)
  exact h

end ZeroSpice
